import Mathlib

/-!
Shallow embedding of the tabular diff/join logic of the xls_merger scripts
(`excel_compare.py`, `combine_data.py`, `simple_excel_combine.py`,
`create_excel_output.py`), together with theorems settling the frozen
claims about them.

Cells are modelled by `Val` (a missing value as pandas NaN, a string, or an
integer); tables by an ordered column list plus rows given as association
lists from column name to value, with absent keys read as missing — this
matches pandas cell access on frames whose added columns are all-NaN.
-/

namespace XlsMerger

/-- Scalar cell value as pandas holds it: missing (NaN), a string, or an
integer. -/
inductive Val where
  | vnan
  | vstr (s : String)
  | vint (n : Int)
deriving DecidableEq, Repr

/-- Embeds `pd.isna` on a scalar. -/
def Val.isna : Val → Bool
  | .vnan => true
  | _ => false

/-- Embeds Python `str()` on a scalar value (as the differ applies it to
non-missing values). -/
def Val.pyStr : Val → String
  | .vnan => "nan"
  | .vstr s => s
  | .vint n => toString n

/-- Embeds pandas elementwise `==` on scalars: NaN compares unequal to
everything (itself included), and values of different kinds compare
unequal. -/
def pdEq : Val → Val → Bool
  | .vstr a, .vstr b => a == b
  | .vint a, .vint b => a == b
  | _, _ => false

/-- A diff-matrix cell, the two marker strings of `compare_excel_files`. -/
inductive Diff where
  | SAME
  | DIFFERENT
deriving DecidableEq, Repr

/-- Cell classification of `compare_excel_files` (excel_compare.py lines
73-81): both NaN is SAME, exactly one NaN is DIFFERENT, otherwise the
`str()` forms are compared. -/
def classify (val1 val2 : Val) : Diff :=
  if val1.isna && val2.isna then .SAME
  else if val1.isna || val2.isna then .DIFFERENT
  else if val1.pyStr == val2.pyStr then .SAME
  else .DIFFERENT

/-- A row: association list from column name to value.  A name absent from
the list reads as NaN (pandas fills columns added during alignment with
NaN, and padding rows are fully NaN). -/
abbrev TRow := List (String × Val)

/-- Reads one cell of a row; absent columns are missing values. -/
def lookupCell (r : TRow) (c : String) : Val :=
  match r.find? (fun p => p.1 == c) with
  | some p => p.2
  | none => .vnan

/-- A table: ordered column names and ordered rows. -/
structure Table where
  cols : List String
  rows : List TRow
deriving DecidableEq, Repr

/-- Well-formed table: every key appearing in a row is one of the table's
columns (as pandas frames guarantee). -/
def Table.WF (t : Table) : Prop :=
  ∀ r ∈ t.rows, ∀ p ∈ r, p.1 ∈ t.cols

/-- Cell access `df.loc[row, col]`; out-of-range rows read as empty rows. -/
def Table.cell (t : Table) (i : Nat) (c : String) : Val :=
  lookupCell (t.rows.getD i []) c

/-- Pads a table with fully empty rows at the end up to `n` rows
(excel_compare.py lines 42-50). -/
def padRows (t : Table) (n : Nat) : Table :=
  ⟨t.cols, t.rows ++ List.replicate (n - t.rows.length) []⟩

/-- Result of the differ: the two aligned tables and the diff matrix. -/
structure DiffResult where
  alignedA : Table
  alignedB : Table
  matrix : List (List Diff)
deriving DecidableEq, Repr

/-- Embeds `compare_excel_files` (excel_compare.py lines 38-96): pad both
tables to `max` row count, align both to the union of the column sets
(missing columns read as all-NaN), then classify every aligned cell. -/
def compare_excel_files (df1 df2 : Table) : DiffResult :=
  let maxRows := max df1.rows.length df2.rows.length
  let d1 := padRows df1 maxRows
  let d2 := padRows df2 maxRows
  let allColumns := d1.cols.union d2.cols
  let a1 : Table := ⟨allColumns, d1.rows⟩
  let a2 : Table := ⟨allColumns, d2.rows⟩
  let matrix := (List.range maxRows).map (fun i =>
    allColumns.map (fun c => classify (a1.cell i c) (a2.cell i c)))
  ⟨a1, a2, matrix⟩

/-- The matrix viewed as a mapping from (row index, column name) to a
classification: `none` outside the aligned grid. -/
def DiffResult.cellAt (r : DiffResult) (i : Nat) (c : String) : Option Diff :=
  (r.matrix[i]?).bind (fun row => row[r.alignedA.cols.indexOf c]?)

/-- Aggregate statistics of `compare_excel_files` (excel_compare.py lines
86-94).  `total` is `differences.size` (rows times columns); `different`
counts DIFFERENT cells; `same` is their difference.  The source divides
`different / total` with no guard, so on an empty grid Python performs a
division by zero; the unguarded division is modelled by `none` there. -/
structure Stats where
  total : Nat
  different : Nat
  same : Nat
  percentage : Option ℚ
deriving DecidableEq, Repr

/-- Computes the printed statistics from a diff result. -/
def computeStats (r : DiffResult) : Stats :=
  let total := r.matrix.length * r.alignedA.cols.length
  let different := (r.matrix.map (fun row => row.countP (fun d => d == Diff.DIFFERENT))).sum
  ⟨total, different, total - different,
    if total = 0 then none else some ((different : ℚ) / (total : ℚ) * 100)⟩

/-! ## Combiner data model

The three input sheets of `data.xlsx` have fixed columns (definitions:
FDIRs, id; monitors: id, mons, thresholds; conditions: id, condition_mons,
counts, response), embedded as record types. -/

/-- A row of the `definitions` sheet. -/
structure DefRow where
  FDIRs : Val
  id : Val
deriving DecidableEq, Repr

/-- A row of the `monitors` sheet. -/
structure MonRow where
  id : Val
  mons : Val
  thresholds : Val
deriving DecidableEq, Repr

/-- A row of the `conditions` sheet. -/
structure CondRow where
  id : Val
  condition_mons : Val
  counts : Val
  response : Val
deriving DecidableEq, Repr

/-- Embeds `monitors[monitors['id'] == fdir_id]`: boolean-mask selection,
preserving source row order. -/
def selectMonitors (monitors : List MonRow) (k : Val) : List MonRow :=
  monitors.filter (fun r => pdEq r.id k)

/-- Embeds `.dropna(subset=['condition_mons'])`. -/
def dropnaConditionMons (l : List CondRow) : List CondRow :=
  l.filter (fun r => !r.condition_mons.isna)

/-- Embeds `conditions[conditions['id'] == fdir_id].dropna(subset=['condition_mons'])`
(combine_data.py line 45, simple_excel_combine.py line 48,
create_excel_output.py line 44). -/
def selectConditions (conditions : List CondRow) (k : Val) : List CondRow :=
  dropnaConditionMons (conditions.filter (fun r => pdEq r.id k))

/-- One entry of a combined record's monitor list
(combine_data.py lines 38-42). -/
structure MonitorEntry where
  monitor : Val
  threshold : Val
deriving DecidableEq, Repr

/-- One entry of a combined record's condition list
(combine_data.py lines 47-52). -/
structure ConditionEntry where
  condition : Val
  count : Val
  response : Val
deriving DecidableEq, Repr

/-- The per-FDIR combined record (combine_data.py lines 54-59). -/
structure FdirRecord where
  id : Val
  monitors : List MonitorEntry
  conditions : List ConditionEntry
deriving DecidableEq, Repr

/-- Python-dict assignment `d[k] = v` on an association list kept in
insertion order: an existing key is overwritten in place, a new key is
appended. -/
def alistSet {α : Type} (d : List (Val × α)) (k : Val) (v : α) : List (Val × α) :=
  if d.any (fun p => p.1 == k) then d.map (fun p => if p.1 == k then (k, v) else p)
  else d ++ [(k, v)]

/-- Python-dict lookup `d.get(k)` on such an association list. -/
def alistGet? {α : Type} (d : List (Val × α)) (k : Val) : Option α :=
  (d.find? (fun p => p.1 == k)).map Prod.snd

/-- Embeds `combine_excel_data` (combine_data.py lines 29-59): for each
definitions row, in order, store under its FDIR name the record of its id,
its matched monitor rows and its matched (validity-filtered) condition
rows. -/
def combine_excel_data (defs : List DefRow) (mons : List MonRow) (conds : List CondRow) :
    List (Val × FdirRecord) :=
  defs.foldl (fun acc r =>
    alistSet acc r.FDIRs
      ⟨r.id,
        (selectMonitors mons r.id).map (fun m => ⟨m.mons, m.thresholds⟩),
        (selectConditions conds r.id).map (fun c => ⟨c.condition_mons, c.counts, c.response⟩)⟩) []

/-- The empty-string filler Python uses for missing child fields. -/
def emptyStr : Val := .vstr ""

/-- A row of the flattened CSV (combine_data.py lines 140-156). -/
structure CsvRow where
  FDIR : Val
  ID : Val
  Monitor : Val
  Threshold : Val
  Condition : Val
  Count : Val
  Response : Val
deriving DecidableEq, Repr

/-- Embeds the per-record CSV flattening of `save_combined_data`
(combine_data.py lines 133-156): when the record has any monitor or
condition, one row per index below `max(len(monitors), len(conditions))`
with empty-string fillers past each list's end; otherwise a single row
with all child fields empty. -/
def flattenRecord (name : Val) (d : FdirRecord) : List CsvRow :=
  if d.monitors ≠ [] ∨ d.conditions ≠ [] then
    (List.range (max d.monitors.length d.conditions.length)).map (fun i =>
      ⟨name, d.id,
        (match d.monitors[i]? with | some m => m.monitor | none => emptyStr),
        (match d.monitors[i]? with | some m => m.threshold | none => emptyStr),
        (match d.conditions[i]? with | some c => c.condition | none => emptyStr),
        (match d.conditions[i]? with | some c => c.count | none => emptyStr),
        (match d.conditions[i]? with | some c => c.response | none => emptyStr)⟩)
  else [⟨name, d.id, emptyStr, emptyStr, emptyStr, emptyStr, emptyStr⟩]

/-! ## Union-of-all-keys combiner (`simple_excel_combine.py`) -/

/-- Embeds `set(monitors['id'].unique()) | set(conditions['id'].dropna().unique())`
(simple_excel_combine.py line 21): every monitor id plus every non-NaN
condition id, deduplicated.  The Python set is then iterated in sorted
order; the claims below do not depend on the iteration order, so the
embedding keeps first-occurrence order. -/
def allIds (mons : List MonRow) (conds : List CondRow) : List Val :=
  ((mons.map (fun r => r.id)) ++ ((conds.map (fun r => r.id)).filter (fun v => !v.isna))).dedup

/-- Embeds the `id_to_fdir` construction (simple_excel_combine.py lines
24-36): the definitions rows keyed by id (later rows overwrite earlier
ones), then the two hardcoded fixups — `fpu_bat ↦ Battery` when `fpu_bat`
is among the ids and `fpu_batt` is a key of the mapping, and
`fpu_tracker ↦ Tracker` when `fpu_tracker` is among the ids. -/
def buildIdToFdir (defs : List DefRow) (ids : List Val) : List (Val × Val) :=
  let d0 := defs.foldl (fun d r => alistSet d r.id r.FDIRs) []
  let d1 :=
    if ids.contains (Val.vstr "fpu_bat") && d0.any (fun p => p.1 == Val.vstr "fpu_batt") then
      alistSet d0 (Val.vstr "fpu_bat") (Val.vstr "Battery")
    else d0
  if ids.contains (Val.vstr "fpu_tracker") then
    alistSet d1 (Val.vstr "fpu_tracker") (Val.vstr "Tracker")
  else d1

/-- Embeds `id_to_fdir.get(fdir_id, f"Unknown_{fdir_id}")`
(simple_excel_combine.py line 42). -/
def fdirLabel (d : List (Val × Val)) (k : Val) : Val :=
  (alistGet? d k).getD (Val.vstr ("Unknown_" ++ k.pyStr))

/-- A row of the combined flat output (simple_excel_combine.py lines
56-64). -/
structure SimpleRow where
  FDIRs : Val
  id : Val
  mons : Val
  thresholds : Val
  condition_mons : Val
  counts : Val
  response : Val
deriving DecidableEq, Repr

/-- Embeds the per-id row block of `create_simple_combined_excel`
(simple_excel_combine.py lines 52-65): `max(len(monitors), len(conditions), 1)`
rows, with empty-string fillers past each child list's end. -/
def entityRows (name fdirId : Val) (fm : List MonRow) (fc : List CondRow) : List SimpleRow :=
  (List.range (max (max fm.length fc.length) 1)).map (fun i =>
    ⟨name, fdirId,
      (match fm[i]? with | some m => m.mons | none => emptyStr),
      (match fm[i]? with | some m => m.thresholds | none => emptyStr),
      (match fc[i]? with | some c => c.condition_mons | none => emptyStr),
      (match fc[i]? with | some c => c.counts | none => emptyStr),
      (match fc[i]? with | some c => c.response | none => emptyStr)⟩)

/-- Embeds the combined flat table of `create_simple_combined_excel`
(simple_excel_combine.py lines 38-68): one row block per id in the union
of all child-table ids, labelled through `id_to_fdir` with the
`Unknown_<id>` fallback. -/
def create_simple_combined_excel (defs : List DefRow) (mons : List MonRow)
    (conds : List CondRow) : List SimpleRow :=
  let ids := allIds mons conds
  let d := buildIdToFdir defs ids
  ids.flatMap (fun k => entityRows (fdirLabel d k) k (selectMonitors mons k) (selectConditions conds k))

/-! ## Sample data used by witnesses -/

/-- Sample table with one row. -/
def sampleA : Table := ⟨["id", "val"], [[("id", .vint 1), ("val", .vstr "x")]]⟩

/-- Sample table with two rows. -/
def sampleB : Table :=
  ⟨["id", "val"], [[("id", .vint 1), ("val", .vstr "x")], [("id", .vint 2), ("val", .vstr "y")]]⟩

/-- The completely empty table (no rows, no columns). -/
def emptyTable : Table := ⟨[], []⟩

/-- Sample definitions sheet. -/
def sampleDefs : List DefRow := [⟨.vstr "A", .vint 1⟩]

/-- Sample monitors sheet (one matching row, one non-matching). -/
def sampleMons : List MonRow := [⟨.vint 1, .vstr "m1", .vint 3⟩, ⟨.vint 2, .vstr "m2", .vint 4⟩]

/-- Sample conditions sheet (one NaN-validity row, one valid row). -/
def sampleConds : List CondRow :=
  [⟨.vint 1, .vnan, .vint 0, .vstr "r"⟩, ⟨.vint 1, .vstr "c", .vint 1, .vstr "r2"⟩]

/-! ## Lemmas about classification -/

theorem classify_self (a : Val) : classify a a = Diff.SAME := by
  cases a <;> simp [classify, Val.isna]

theorem classify_comm (a b : Val) : classify a b = classify b a := by
  cases a <;> cases b <;> simp [classify, Val.isna, Val.pyStr] <;>
    split_ifs <;> simp_all

/-! ## Claims about cell classification -/

/-- C1: an aligned cell is SAME when both values are missing, DIFFERENT when
exactly one is missing, and when both are present it is SAME exactly when
their string forms are equal, DIFFERENT otherwise. -/
theorem claim_C1_cell_classification (a b : Val) :
    (a.isna = true → b.isna = true → classify a b = Diff.SAME) ∧
    (a.isna ≠ b.isna → classify a b = Diff.DIFFERENT) ∧
    (a.isna = false → b.isna = false → (classify a b = Diff.SAME ↔ a.pyStr = b.pyStr)) ∧
    (a.isna = false → b.isna = false → (classify a b = Diff.DIFFERENT ↔ a.pyStr ≠ b.pyStr)) := by
  cases a <;> cases b <;>
    simp [classify, Val.isna, Val.pyStr]

/-- Witness for C1 at the spec's own example: string "5" against integer 5
classifies SAME because both string forms are "5". -/
theorem claim_C1_cell_classification_witness :
    classify (Val.vstr "5") (Val.vint 5) = Diff.SAME :=
  ((claim_C1_cell_classification (Val.vstr "5") (Val.vint 5)).2.2.1 rfl rfl).mpr (by decide)

/-! ## Lemmas about alignment -/

theorem lookupCell_nil (c : String) : lookupCell [] c = Val.vnan := rfl

theorem mem_cols_union (l₁ l₂ : List String) (c : String) :
    c ∈ l₁.union l₂ ↔ c ∈ l₁ ∨ c ∈ l₂ := List.mem_union_iff

theorem getD_append_replicate_nil (l : List TRow) (k i : Nat) :
    (l ++ List.replicate k ([] : TRow)).getD i [] = l.getD i [] := by
  rcases Nat.lt_or_ge i l.length with h | h
  · rw [List.getD_eq_getElem?_getD, List.getElem?_append_left h, ← List.getD_eq_getElem?_getD]
  · rw [List.getD_eq_getElem?_getD, List.getD_eq_getElem?_getD,
      List.getElem?_append_right h, List.getElem?_eq_none h, List.getElem?_replicate]
    split <;> rfl

theorem cell_padRows (t : Table) (n : Nat) (i : Nat) (c : String) :
    (padRows t n).cell i c = t.cell i c := by
  unfold Table.cell padRows
  rw [getD_append_replicate_nil]

theorem cell_mk (cols cols2 : List String) (rows : List TRow) (i : Nat) (c : String) :
    (Table.mk cols rows).cell i c = (Table.mk cols2 rows).cell i c := rfl

theorem compare_alignedA_cols (A B : Table) :
    (compare_excel_files A B).alignedA.cols = A.cols.union B.cols := rfl

theorem compare_alignedB_cols (A B : Table) :
    (compare_excel_files A B).alignedB.cols = A.cols.union B.cols := rfl

theorem compare_alignedA_rows (A B : Table) :
    (compare_excel_files A B).alignedA.rows
      = A.rows ++ List.replicate (max A.rows.length B.rows.length - A.rows.length) [] := rfl

theorem compare_alignedB_rows (A B : Table) :
    (compare_excel_files A B).alignedB.rows
      = B.rows ++ List.replicate (max A.rows.length B.rows.length - B.rows.length) [] := rfl

theorem compare_matrix (A B : Table) :
    (compare_excel_files A B).matrix
      = (List.range (max A.rows.length B.rows.length)).map (fun i =>
          (A.cols.union B.cols).map (fun c => classify (A.cell i c) (B.cell i c))) := by
  show (List.range (max A.rows.length B.rows.length)).map _ = _
  apply List.map_congr_left
  intro i _
  apply List.map_congr_left
  intro c _
  rw [cell_mk _ A.cols, cell_mk _ B.cols]
  show classify ((padRows A _).cell i c) ((padRows B _).cell i c) = _
  rw [cell_padRows, cell_padRows]

theorem compare_matrix_length (A B : Table) :
    (compare_excel_files A B).matrix.length = max A.rows.length B.rows.length := by
  rw [compare_matrix, List.length_map, List.length_range]

theorem compare_matrix_getElem? (A B : Table) (i : Nat)
    (hi : i < max A.rows.length B.rows.length) :
    (compare_excel_files A B).matrix[i]?
      = some ((A.cols.union B.cols).map (fun c => classify (A.cell i c) (B.cell i c))) := by
  rw [compare_matrix, List.getElem?_map, List.getElem?_range hi, Option.map_some']

theorem map_getElem?_indexOf {β : Type} (f : String → β) (l : List String) (c : String)
    (h : c ∈ l) :
    (l.map f)[l.indexOf c]? = some (f c) := by
  have hlt : l.indexOf c < l.length := List.indexOf_lt_length.2 h
  rw [List.getElem?_eq_getElem (by simpa using hlt), List.getElem_map]
  rw [List.getElem_indexOf hlt]

theorem compare_cellAt_eq (A B : Table) (i : Nat) (c : String)
    (hi : i < max A.rows.length B.rows.length) (hc : c ∈ A.cols.union B.cols) :
    (compare_excel_files A B).cellAt i c = some (classify (A.cell i c) (B.cell i c)) := by
  unfold DiffResult.cellAt
  rw [compare_matrix_getElem? A B i hi, compare_alignedA_cols, Option.some_bind,
    map_getElem?_indexOf _ _ _ hc]

theorem compare_cellAt_none_row (A B : Table) (i : Nat) (c : String)
    (hi : max A.rows.length B.rows.length ≤ i) :
    (compare_excel_files A B).cellAt i c = none := by
  unfold DiffResult.cellAt
  rw [List.getElem?_eq_none (by rw [compare_matrix_length]; omega), Option.none_bind]

theorem compare_cellAt_none_col (A B : Table) (i : Nat) (c : String)
    (hc : c ∉ A.cols.union B.cols) :
    (compare_excel_files A B).cellAt i c = none := by
  unfold DiffResult.cellAt
  rcases Nat.lt_or_ge i (max A.rows.length B.rows.length) with hi | hi
  · rw [compare_matrix_getElem? A B i hi, compare_alignedA_cols, Option.some_bind]
    rw [List.getElem?_eq_none]
    rw [List.length_map, List.indexOf_of_not_mem hc]
  · rw [List.getElem?_eq_none (by rw [compare_matrix_length]; omega), Option.none_bind]

/-- C5: viewed as a mapping from (row index, column name) to classification,
the diff matrix of `compare_excel_files A B` equals that of
`compare_excel_files B A` everywhere (and both are undefined outside the
common aligned grid). -/
theorem claim_C5_diff_symmetric (A B : Table) (i : Nat) (c : String) :
    (compare_excel_files A B).cellAt i c = (compare_excel_files B A).cellAt i c := by
  rcases Nat.lt_or_ge i (max A.rows.length B.rows.length) with hi | hi
  · by_cases hc : c ∈ A.cols.union B.cols
    · have hc2 : c ∈ B.cols.union A.cols := by
        rw [mem_cols_union] at hc ⊢
        tauto
      rw [compare_cellAt_eq A B i c hi hc,
        compare_cellAt_eq B A i c (by omega) hc2, classify_comm]
    · have hc2 : c ∉ B.cols.union A.cols := by
        rw [mem_cols_union] at hc ⊢
        tauto
      rw [compare_cellAt_none_col A B i c hc, compare_cellAt_none_col B A i c hc2]
  · rw [compare_cellAt_none_row A B i c hi, compare_cellAt_none_row B A i c (by omega)]

/-- C2: the aligned outputs have row count `max(len A, len B)` with the
shorter table padded by fully empty rows at the end, the column set is the
union of the two column sets with columns missing from one side reading
entirely empty, and the diff matrix has exactly one cell per (row, column)
pair of that alignment. -/
theorem claim_C2_alignment (A B : Table) (hA : A.WF) (hB : B.WF) :
    ((compare_excel_files A B).alignedA.rows.length = max A.rows.length B.rows.length ∧
     (compare_excel_files A B).alignedB.rows.length = max A.rows.length B.rows.length) ∧
    ((compare_excel_files A B).alignedA.rows.take A.rows.length = A.rows ∧
     (compare_excel_files A B).alignedB.rows.take B.rows.length = B.rows ∧
     (∀ i, A.rows.length ≤ i → ∀ c, (compare_excel_files A B).alignedA.cell i c = Val.vnan) ∧
     (∀ i, B.rows.length ≤ i → ∀ c, (compare_excel_files A B).alignedB.cell i c = Val.vnan)) ∧
    ((∀ c, c ∈ (compare_excel_files A B).alignedA.cols ↔ (c ∈ A.cols ∨ c ∈ B.cols)) ∧
     (compare_excel_files A B).alignedB.cols = (compare_excel_files A B).alignedA.cols) ∧
    ((∀ c, c ∉ A.cols → ∀ i, (compare_excel_files A B).alignedA.cell i c = Val.vnan) ∧
     (∀ c, c ∉ B.cols → ∀ i, (compare_excel_files A B).alignedB.cell i c = Val.vnan)) ∧
    ((compare_excel_files A B).matrix.length = max A.rows.length B.rows.length ∧
     ∀ row ∈ (compare_excel_files A B).matrix,
       row.length = (compare_excel_files A B).alignedA.cols.length) := by
  have hlenA : (compare_excel_files A B).alignedA.rows.length
      = max A.rows.length B.rows.length := by
    rw [compare_alignedA_rows, List.length_append, List.length_replicate]
    omega
  have hlenB : (compare_excel_files A B).alignedB.rows.length
      = max A.rows.length B.rows.length := by
    rw [compare_alignedB_rows, List.length_append, List.length_replicate]
    omega
  have hcellA : ∀ i c, (compare_excel_files A B).alignedA.cell i c = A.cell i c := by
    intro i c
    show (Table.mk _ (padRows A _).rows).cell i c = _
    rw [cell_mk _ A.cols]
    exact cell_padRows A _ i c
  have hcellB : ∀ i c, (compare_excel_files A B).alignedB.cell i c = B.cell i c := by
    intro i c
    show (Table.mk _ (padRows B _).rows).cell i c = _
    rw [cell_mk _ B.cols]
    exact cell_padRows B _ i c
  have hoob : ∀ (t : Table) (i : Nat), t.rows.length ≤ i → ∀ c, t.cell i c = Val.vnan := by
    intro t i hle c
    unfold Table.cell
    rw [List.getD_eq_getElem?_getD, List.getElem?_eq_none hle]
    rfl
  have hmissing : ∀ (t : Table), t.WF → ∀ c, c ∉ t.cols → ∀ i, t.cell i c = Val.vnan := by
    intro t hwf c hc i
    rcases Nat.lt_or_ge i t.rows.length with h | h
    · unfold Table.cell lookupCell
      have hrow : t.rows.getD i [] ∈ t.rows := by
        rw [List.getD_eq_getElem?_getD, List.getElem?_eq_getElem h, Option.getD_some]
        exact List.getElem_mem _
      have hfind : ((t.rows.getD i []).find? (fun p => p.1 == c)) = none := by
        rw [List.find?_eq_none]
        intro p hp hbeq
        exact hc (beq_iff_eq.mp hbeq ▸ hwf _ hrow p hp)
      rw [hfind]
    · exact hoob t i h c
  refine ⟨⟨hlenA, hlenB⟩, ⟨?_, ?_, ?_, ?_⟩, ⟨?_, rfl⟩, ⟨?_, ?_⟩, ?_, ?_⟩
  · rw [compare_alignedA_rows, List.take_left']
    rfl
  · rw [compare_alignedB_rows, List.take_left']
    rfl
  · intro i hle c
    rw [hcellA]
    exact hoob A i hle c
  · intro i hle c
    rw [hcellB]
    exact hoob B i hle c
  · intro c
    rw [compare_alignedA_cols]
    exact mem_cols_union A.cols B.cols c
  · intro c hc i
    rw [hcellA]
    exact hmissing A hA c hc i
  · intro c hc i
    rw [hcellB]
    exact hmissing B hB c hc i
  · exact compare_matrix_length A B
  · intro row hrow
    rw [compare_matrix] at hrow
    rcases List.mem_map.mp hrow with ⟨i, _, rfl⟩
    rw [List.length_map, compare_alignedA_cols]

/-- Witness for C2 at the two sample tables (one row against two rows). -/
theorem claim_C2_alignment_witness :
    ((compare_excel_files sampleA sampleB).alignedA.rows.length
        = max sampleA.rows.length sampleB.rows.length ∧
     (compare_excel_files sampleA sampleB).alignedB.rows.length
        = max sampleA.rows.length sampleB.rows.length) ∧
    ((compare_excel_files sampleA sampleB).alignedA.rows.take sampleA.rows.length
        = sampleA.rows ∧
     (compare_excel_files sampleA sampleB).alignedB.rows.take sampleB.rows.length
        = sampleB.rows ∧
     (∀ i, sampleA.rows.length ≤ i → ∀ c,
        (compare_excel_files sampleA sampleB).alignedA.cell i c = Val.vnan) ∧
     (∀ i, sampleB.rows.length ≤ i → ∀ c,
        (compare_excel_files sampleA sampleB).alignedB.cell i c = Val.vnan)) ∧
    ((∀ c, c ∈ (compare_excel_files sampleA sampleB).alignedA.cols ↔
        (c ∈ sampleA.cols ∨ c ∈ sampleB.cols)) ∧
     (compare_excel_files sampleA sampleB).alignedB.cols
        = (compare_excel_files sampleA sampleB).alignedA.cols) ∧
    ((∀ c, c ∉ sampleA.cols → ∀ i,
        (compare_excel_files sampleA sampleB).alignedA.cell i c = Val.vnan) ∧
     (∀ c, c ∉ sampleB.cols → ∀ i,
        (compare_excel_files sampleA sampleB).alignedB.cell i c = Val.vnan)) ∧
    ((compare_excel_files sampleA sampleB).matrix.length
        = max sampleA.rows.length sampleB.rows.length ∧
     ∀ row ∈ (compare_excel_files sampleA sampleB).matrix,
       row.length = (compare_excel_files sampleA sampleB).alignedA.cols.length) :=
  claim_C2_alignment sampleA sampleB
    (show ∀ r ∈ sampleA.rows, ∀ p ∈ r, p.1 ∈ sampleA.cols by decide)
    (show ∀ r ∈ sampleB.rows, ∀ p ∈ r, p.1 ∈ sampleB.cols by decide)

/-- C3: total cell count is aligned rows times aligned columns, the
different count is the count of DIFFERENT cells, the same count is their
difference, and percentage is `different/total*100` whenever `total` is
non-zero; but at `total = 0` (both inputs completely empty) the source has
no divide-by-zero guard and produces no number (modelled `none`) instead
of the 0 the claim requires. -/
theorem computeStats_percentage (r : DiffResult) :
    (computeStats r).percentage
      = if (computeStats r).total = 0 then none
        else some (((computeStats r).different : ℚ) / ((computeStats r).total : ℚ) * 100) := rfl

theorem claim_C3_statistics :
    (∀ A B : Table,
      (computeStats (compare_excel_files A B)).total
          = max A.rows.length B.rows.length * (compare_excel_files A B).alignedA.cols.length ∧
      (computeStats (compare_excel_files A B)).different
          = ((compare_excel_files A B).matrix.map (fun row => row.count Diff.DIFFERENT)).sum ∧
      (computeStats (compare_excel_files A B)).same
          = (computeStats (compare_excel_files A B)).total
              - (computeStats (compare_excel_files A B)).different ∧
      ((computeStats (compare_excel_files A B)).total ≠ 0 →
        (computeStats (compare_excel_files A B)).percentage
          = some (((computeStats (compare_excel_files A B)).different : ℚ)
              / ((computeStats (compare_excel_files A B)).total : ℚ) * 100))) ∧
    ((computeStats (compare_excel_files emptyTable emptyTable)).total = 0 ∧
     (computeStats (compare_excel_files emptyTable emptyTable)).percentage = none) := by
  refine ⟨fun A B => ⟨?_, rfl, rfl, ?_⟩, by decide, by decide⟩
  · show (compare_excel_files A B).matrix.length * _ = _
    rw [compare_matrix_length]
  · intro h
    rw [computeStats_percentage, if_neg h]

/-- Witness for C3's hypothesis-guarded percentage formula, at the two
sample tables (4 cells, 2 DIFFERENT, 50 percent). -/
theorem claim_C3_statistics_witness :
    (computeStats (compare_excel_files sampleA sampleB)).total ≠ 0 ∧
    (computeStats (compare_excel_files sampleA sampleB)).percentage
      = some (((computeStats (compare_excel_files sampleA sampleB)).different : ℚ)
          / ((computeStats (compare_excel_files sampleA sampleB)).total : ℚ) * 100) :=
  ⟨by decide, ((claim_C3_statistics.1 sampleA sampleB).2.2.2 (by decide))⟩

/-- Counterexample to C4 as stated: for the completely empty table, diffing
it against itself does not yield difference percentage 0 — the unguarded
`different/total` division has no value there (Python divides by zero). -/
theorem claim_C4_counterexample :
    (computeStats (compare_excel_files emptyTable emptyTable)).percentage ≠ some 0 := by
  decide

/-- C4 amended: diffing any table against itself yields a matrix entirely
SAME, and difference percentage 0 provided the aligned grid has at least
one cell (for an empty grid the source's unguarded division faults instead
of producing 0). -/
theorem claim_C4_diff_self (A : Table) :
    (∀ row ∈ (compare_excel_files A A).matrix, ∀ d ∈ row, d = Diff.SAME) ∧
    ((computeStats (compare_excel_files A A)).total ≠ 0 →
      (computeStats (compare_excel_files A A)).percentage = some 0) := by
  have hsame : ∀ row ∈ (compare_excel_files A A).matrix, ∀ d ∈ row, d = Diff.SAME := by
    intro row hrow d hd
    rw [compare_matrix] at hrow
    rcases List.mem_map.mp hrow with ⟨i, _, rfl⟩
    rcases List.mem_map.mp hd with ⟨c, _, rfl⟩
    exact classify_self _
  have hzero : ((compare_excel_files A A).matrix.map
      (fun row => row.countP (fun d => d == Diff.DIFFERENT))).sum = 0 := by
    apply List.sum_eq_zero
    intro x hx
    rcases List.mem_map.mp hx with ⟨row, hrow, rfl⟩
    rw [List.countP_eq_zero]
    intro d hd
    rw [hsame row hrow d hd]
    decide
  refine ⟨hsame, fun h => ?_⟩
  have hd0 : (computeStats (compare_excel_files A A)).different = 0 := hzero
  rw [computeStats_percentage, if_neg h, hd0]
  norm_num

/-- Witness for C4's amended statement at the two-row sample table. -/
theorem claim_C4_diff_self_witness :
    (∀ row ∈ (compare_excel_files sampleB sampleB).matrix, ∀ d ∈ row, d = Diff.SAME) ∧
    (computeStats (compare_excel_files sampleB sampleB)).percentage = some 0 :=
  ⟨(claim_C4_diff_self sampleB).1, (claim_C4_diff_self sampleB).2 (by decide)⟩

/-! ## Claims about the combiner -/

/-- C6: flattening a combined record with `m` matched monitor rows and `n`
matched condition rows emits exactly `max(m, n, 1)` flat rows, in both the
CSV flattening of `save_combined_data` and the per-id block of
`create_simple_combined_excel`; an entity with zero rows in every child
yields exactly one all-empty-filler row, so it is never omitted. -/
theorem claim_C6_flatten_rows (name k : Val) (d : FdirRecord)
    (fm : List MonRow) (fc : List CondRow) :
    ((flattenRecord name d).length = max (max d.monitors.length d.conditions.length) 1) ∧
    (d.monitors = [] → d.conditions = [] →
      flattenRecord name d
        = [⟨name, d.id, emptyStr, emptyStr, emptyStr, emptyStr, emptyStr⟩]) ∧
    ((entityRows name k fm fc).length = max (max fm.length fc.length) 1) ∧
    (fm = [] → fc = [] →
      entityRows name k fm fc
        = [⟨name, k, emptyStr, emptyStr, emptyStr, emptyStr, emptyStr⟩]) := by
  refine ⟨?_, ?_, ?_, ?_⟩
  · unfold flattenRecord
    split
    · rename_i h
      rw [List.length_map, List.length_range]
      rcases h with h | h
      · have h1 : d.monitors.length ≠ 0 := fun hh => h (List.length_eq_zero.mp hh)
        omega
      · have h1 : d.conditions.length ≠ 0 := fun hh => h (List.length_eq_zero.mp hh)
        omega
    · rename_i h
      push_neg at h
      rw [List.length_singleton, h.1, h.2]
      decide
  · intro h1 h2
    unfold flattenRecord
    rw [if_neg (by simp [h1, h2])]
  · unfold entityRows
    rw [List.length_map, List.length_range]
  · intro h1 h2
    subst h1
    subst h2
    rfl

/-- Witness for C6 at a record with one monitor and no conditions, plus the
all-empty case. -/
theorem claim_C6_flatten_rows_witness :
    ((flattenRecord (Val.vstr "A") ⟨Val.vint 1, [⟨Val.vstr "m", Val.vint 1⟩], []⟩).length
        = max (max 1 0) 1) ∧
    (flattenRecord (Val.vstr "A") ⟨Val.vint 1, [], []⟩
        = [⟨Val.vstr "A", Val.vint 1, emptyStr, emptyStr, emptyStr, emptyStr, emptyStr⟩]) ∧
    (entityRows (Val.vstr "A") (Val.vint 1) [] []
        = [⟨Val.vstr "A", Val.vint 1, emptyStr, emptyStr, emptyStr, emptyStr, emptyStr⟩]) :=
  ⟨(claim_C6_flatten_rows (Val.vstr "A") (Val.vint 1)
      ⟨Val.vint 1, [⟨Val.vstr "m", Val.vint 1⟩], []⟩ [] []).1,
   (claim_C6_flatten_rows (Val.vstr "A") (Val.vint 1)
      ⟨Val.vint 1, [], []⟩ [] []).2.1 rfl rfl,
   (claim_C6_flatten_rows (Val.vstr "A") (Val.vint 1)
      ⟨Val.vint 1, [], []⟩ [] []).2.2.2 rfl rfl⟩

/-- C7: the selected condition rows for a key are exactly the source rows
whose key matches and whose validity column (condition_mons) is non-empty;
this equals filtering empty-validity rows out before the key selection,
and no selected row has an empty validity value. -/
theorem claim_C7_condition_validity (conds : List CondRow) (k : Val) :
    (selectConditions conds k
        = conds.filter (fun r => pdEq r.id k && !r.condition_mons.isna)) ∧
    (selectConditions conds k
        = (dropnaConditionMons conds).filter (fun r => pdEq r.id k)) ∧
    (∀ r ∈ selectConditions conds k, r.condition_mons.isna = false) := by
  refine ⟨?_, ?_, ?_⟩
  · unfold selectConditions dropnaConditionMons
    rw [List.filter_filter]
    exact List.filter_congr (fun r _ => Bool.and_comm _ _)
  · unfold selectConditions dropnaConditionMons
    rw [List.filter_filter, List.filter_filter]
    exact List.filter_congr (fun r _ => Bool.and_comm _ _)
  · intro r hr
    unfold selectConditions dropnaConditionMons at hr
    have h2 := (List.mem_filter.mp hr).2
    simpa using h2

/-- Witness for C7 at the sample conditions sheet: the NaN-validity row is
dropped, and the surviving row has a non-empty validity value. -/
theorem claim_C7_condition_validity_witness :
    (selectConditions sampleConds (Val.vint 1)
        = sampleConds.filter (fun r => pdEq r.id (Val.vint 1) && !r.condition_mons.isna)) ∧
    (⟨Val.vint 1, Val.vstr "c", Val.vint 1, Val.vstr "r2"⟩ : CondRow).condition_mons.isna
        = false :=
  ⟨(claim_C7_condition_validity sampleConds (Val.vint 1)).1,
   (claim_C7_condition_validity sampleConds (Val.vint 1)).2.2 _ (by decide)⟩

/-! ## Lemmas about the python-dict association lists -/

theorem mem_alistSet {α : Type} {d : List (Val × α)} {k : Val} {v : α} {p : Val × α}
    (h : p ∈ alistSet d k v) : p = (k, v) ∨ p ∈ d := by
  unfold alistSet at h
  split at h
  · rcases List.mem_map.mp h with ⟨q, hq, hqe⟩
    split at hqe
    · left
      exact hqe.symm
    · right
      exact hqe ▸ hq
  · rcases List.mem_append.mp h with h1 | h1
    · right
      exact h1
    · left
      simpa using h1

theorem mem_foldl_alistSet {α β : Type} (key : β → Val) (val : β → α) :
    ∀ (l : List β) (acc : List (Val × α)) (p : Val × α),
      p ∈ l.foldl (fun d r => alistSet d (key r) (val r)) acc →
      p ∈ acc ∨ ∃ r ∈ l, p = (key r, val r)
  | [], _, _, h => Or.inl h
  | r :: l, acc, p, h => by
    rcases mem_foldl_alistSet key val l _ p h with h1 | h1
    · rcases mem_alistSet h1 with h2 | h2
      · right
        exact ⟨r, List.mem_cons_self r l, h2⟩
      · left
        exact h2
    · rcases h1 with ⟨q, hq, he⟩
      right
      exact ⟨q, List.mem_cons_of_mem r hq, he⟩

theorem alistGet?_mem {α : Type} {d : List (Val × α)} {k : Val} {v : α}
    (h : alistGet? d k = some v) : (k, v) ∈ d := by
  unfold alistGet? at h
  rcases Option.map_eq_some'.mp h with ⟨p, hfind, hsnd⟩
  have hmem := List.mem_of_find?_eq_some hfind
  have hpred := List.find?_some (p := fun q : Val × α => q.1 == k) (a := p) hfind
  have hkey : p.1 = k := beq_iff_eq.mp hpred
  cases p
  cases hkey
  cases hsnd
  exact hmem

/-- C9: any record stored by the combiner holds exactly the key-matched
child rows, in their original source order — each child list is the
projected filter of its source sheet, hence a sublist of the projected
source sheet. -/
theorem claim_C9_child_order (defs : List DefRow) (mons : List MonRow) (conds : List CondRow)
    (name : Val) (fr : FdirRecord)
    (h : alistGet? (combine_excel_data defs mons conds) name = some fr) :
    (fr.monitors = (selectMonitors mons fr.id).map (fun m => ⟨m.mons, m.thresholds⟩)) ∧
    (fr.conditions
        = (selectConditions conds fr.id).map
            (fun c => ⟨c.condition_mons, c.counts, c.response⟩)) ∧
    fr.monitors.Sublist (mons.map (fun m => (⟨m.mons, m.thresholds⟩ : MonitorEntry))) ∧
    fr.conditions.Sublist
      (conds.map (fun c => (⟨c.condition_mons, c.counts, c.response⟩ : ConditionEntry))) := by
  have hmem := alistGet?_mem h
  unfold combine_excel_data at hmem
  rcases mem_foldl_alistSet _ _ defs [] _ hmem with h1 | h1
  · cases h1
  · rcases h1 with ⟨r, _, he⟩
    obtain ⟨_, hfr⟩ := Prod.mk.injEq _ _ _ _ ▸ he
    subst hfr
    refine ⟨rfl, rfl, ?_, ?_⟩
    · exact (List.filter_sublist _).map _
    · exact ((List.filter_sublist _).trans (List.filter_sublist _)).map _

/-- The record the combiner stores for the sample sheets under name "A". -/
def sampleRecord : FdirRecord :=
  ⟨Val.vint 1, [⟨Val.vstr "m1", Val.vint 3⟩], [⟨Val.vstr "c", Val.vint 1, Val.vstr "r2"⟩]⟩

/-- Witness for C9 at the sample sheets. -/
theorem claim_C9_child_order_witness :
    (sampleRecord.monitors
        = (selectMonitors sampleMons sampleRecord.id).map (fun m => ⟨m.mons, m.thresholds⟩)) ∧
    (sampleRecord.conditions
        = (selectConditions sampleConds sampleRecord.id).map
            (fun c => ⟨c.condition_mons, c.counts, c.response⟩)) ∧
    sampleRecord.monitors.Sublist
      (sampleMons.map (fun m => (⟨m.mons, m.thresholds⟩ : MonitorEntry))) ∧
    sampleRecord.conditions.Sublist
      (sampleConds.map (fun c => (⟨c.condition_mons, c.counts, c.response⟩ : ConditionEntry))) :=
  claim_C9_child_order sampleDefs sampleMons sampleConds (Val.vstr "A") sampleRecord (by decide)

theorem find?_map_set {α : Type} (d : List (Val × α)) (k : Val) (v : α) :
    ((d.map (fun p => if p.1 == k then (k, v) else p)).find? (fun p => p.1 == k))
      = if d.any (fun p => p.1 == k) then some (k, v) else none := by
  induction d with
  | nil => rfl
  | cons q d ih =>
    by_cases hq : (q.1 == k) = true
    · rw [List.map_cons, if_pos hq,
        List.find?_cons_of_pos (p := fun p : Val × α => p.1 == k) _ (beq_self_eq_true k),
        List.any_cons, hq, Bool.true_or, if_pos rfl]
    · rw [Bool.not_eq_true] at hq
      rw [List.map_cons, if_neg (by simp [hq]),
        List.find?_cons_of_neg (p := fun p : Val × α => p.1 == k) _ (by simp [hq]),
        ih, List.any_cons, hq, Bool.false_or]

theorem alistGet?_set_self {α : Type} (d : List (Val × α)) (k : Val) (v : α) :
    alistGet? (alistSet d k v) k = some v := by
  unfold alistGet? alistSet
  split
  · rename_i hany
    rw [find?_map_set, if_pos hany]
    rfl
  · rename_i hany
    have hnone : d.find? (fun p => p.1 == k) = none := by
      rw [List.find?_eq_none]
      intro p hp hpk
      exact hany (List.any_eq_true.mpr ⟨p, hp, hpk⟩)
    rw [List.find?_append, hnone, Option.none_or,
      List.find?_cons_of_pos (p := fun p : Val × α => p.1 == k) _ (beq_self_eq_true k)]
    rfl

theorem find?_alistSet_ne {α : Type} (d : List (Val × α)) (k k2 : Val) (v : α)
    (h : k2 ≠ k) :
    (alistSet d k v).find? (fun p => p.1 == k2) = d.find? (fun p => p.1 == k2) := by
  have hk2 : ¬(((k, v) : Val × α).1 == k2) = true := by
    rw [beq_eq_false_iff_ne.mpr (fun hh => h hh.symm)]
    exact Bool.false_ne_true
  unfold alistSet
  split
  · rename_i hany
    clear hany
    induction d with
    | nil => rfl
    | cons q d ih =>
      by_cases hq : (q.1 == k) = true
      · have hqk : q.1 = k := beq_iff_eq.mp hq
        have hq2 : ¬(q.1 == k2) = true := by
          rw [hqk]
          exact fun hh => (h (beq_iff_eq.mp hh).symm).elim
        rw [List.map_cons, if_pos hq,
          List.find?_cons_of_neg (p := fun p : Val × α => p.1 == k2) _ hk2,
          List.find?_cons_of_neg (p := fun p : Val × α => p.1 == k2) _ hq2, ih]
      · by_cases hq2 : (q.1 == k2) = true
        · rw [List.map_cons, if_neg hq,
            List.find?_cons_of_pos (p := fun p : Val × α => p.1 == k2) _ hq2,
            List.find?_cons_of_pos (p := fun p : Val × α => p.1 == k2) _ hq2]
        · rw [List.map_cons, if_neg hq,
            List.find?_cons_of_neg (p := fun p : Val × α => p.1 == k2) _ hq2,
            List.find?_cons_of_neg (p := fun p : Val × α => p.1 == k2) _ hq2, ih]
  · rw [List.find?_append,
      List.find?_cons_of_neg (p := fun p : Val × α => p.1 == k2) _ hk2,
      List.find?_nil, Option.or_none]

theorem alistGet?_set_ne {α : Type} (d : List (Val × α)) {k k2 : Val} (v : α)
    (h : k2 ≠ k) :
    alistGet? (alistSet d k v) k2 = alistGet? d k2 := by
  unfold alistGet?
  rw [find?_alistSet_ne d k k2 v h]

theorem alistGet?_eq_none {α : Type} {d : List (Val × α)} {k : Val}
    (h : ∀ p ∈ d, p.1 ≠ k) : alistGet? d k = none := by
  unfold alistGet?
  rw [List.find?_eq_none.mpr]
  · rfl
  · intro p hp hpk
    exact h p hp (beq_iff_eq.mp hpk)

theorem alistSet_hasKey_self {α : Type} (d : List (Val × α)) (k : Val) (v : α) :
    (alistSet d k v).any (fun p => p.1 == k) = true := by
  unfold alistSet
  split
  · rename_i hany
    rcases List.any_eq_true.mp hany with ⟨p, hp, hpk⟩
    exact List.any_eq_true.mpr
      ⟨(k, v), List.mem_map.mpr ⟨p, hp, by rw [if_pos hpk]⟩, beq_self_eq_true k⟩
  · exact List.any_eq_true.mpr
      ⟨(k, v), List.mem_append.mpr (Or.inr (List.mem_singleton.mpr rfl)), beq_self_eq_true k⟩

theorem alistSet_hasKey_mono {α : Type} (d : List (Val × α)) (k : Val) (v : α) (k2 : Val)
    (h : d.any (fun p => p.1 == k2) = true) :
    (alistSet d k v).any (fun p => p.1 == k2) = true := by
  rcases List.any_eq_true.mp h with ⟨p, hp, hpk⟩
  unfold alistSet
  split
  · by_cases hq : (p.1 == k) = true
    · refine List.any_eq_true.mpr
        ⟨(k, v), List.mem_map.mpr ⟨p, hp, by rw [if_pos hq]⟩, ?_⟩
      have h1 : p.1 = k := beq_iff_eq.mp hq
      have h2 : p.1 = k2 := beq_iff_eq.mp hpk
      exact beq_iff_eq.mpr (h1 ▸ h2)
    · exact List.any_eq_true.mpr
        ⟨p, List.mem_map.mpr ⟨p, hp, by rw [if_neg hq]⟩, hpk⟩
  · exact List.any_eq_true.mpr ⟨p, List.mem_append.mpr (Or.inl hp), hpk⟩

theorem foldl_alistSet_hasKey_mono {α β : Type} (key : β → Val) (val : β → α) :
    ∀ (l : List β) (acc : List (Val × α)) (k2 : Val),
      acc.any (fun p => p.1 == k2) = true →
      (l.foldl (fun d r => alistSet d (key r) (val r)) acc).any (fun p => p.1 == k2) = true
  | [], _, _, h => h
  | r :: l, acc, k2, h =>
      foldl_alistSet_hasKey_mono key val l _ k2 (alistSet_hasKey_mono acc (key r) (val r) k2 h)

theorem foldl_alistSet_hasKey {α β : Type} (key : β → Val) (val : β → α) :
    ∀ (l : List β) (acc : List (Val × α)) (r : β), r ∈ l →
      (l.foldl (fun d q => alistSet d (key q) (val q)) acc).any
        (fun p => p.1 == key r) = true
  | [], _, r, h => absurd h (List.not_mem_nil r)
  | q :: l, acc, r, h => by
    rcases List.mem_cons.mp h with h1 | h1
    · subst h1
      exact foldl_alistSet_hasKey_mono key val l _ _ (alistSet_hasKey_self acc _ _)
    · exact foldl_alistSet_hasKey key val l _ r h1

/-! ## Lemmas about the union-of-all-keys label mapping -/

theorem mem_foldl_defs {defs : List DefRow} {p : Val × Val}
    (hp : p ∈ defs.foldl (fun d r => alistSet d r.id r.FDIRs) []) :
    ∃ r ∈ defs, p.1 = r.id := by
  rcases mem_foldl_alistSet (fun r : DefRow => r.id) (fun r : DefRow => r.FDIRs)
      defs [] p hp with h | h
  · cases h
  · rcases h with ⟨r, hr, he⟩
    exact ⟨r, hr, by rw [he]⟩

theorem buildIdToFdir_get_none (defs : List DefRow) (ids : List Val) {k : Val}
    (hnp : ∀ r ∈ defs, r.id ≠ k)
    (ht : k ≠ Val.vstr "fpu_tracker")
    (hb : k = Val.vstr "fpu_bat" → ∀ r ∈ defs, r.id ≠ Val.vstr "fpu_batt") :
    alistGet? (buildIdToFdir defs ids) k = none := by
  have hget0 : alistGet? (defs.foldl (fun d r => alistSet d r.id r.FDIRs) []) k = none := by
    apply alistGet?_eq_none
    intro p hp
    rcases mem_foldl_defs hp with ⟨r, hr, he⟩
    rw [he]
    exact hnp r hr
  simp only [buildIdToFdir]
  by_cases hbat : (ids.contains (Val.vstr "fpu_bat")
      && (defs.foldl (fun d r => alistSet d r.id r.FDIRs) []).any
        (fun p => p.1 == Val.vstr "fpu_batt")) = true
  · have hkb : k ≠ Val.vstr "fpu_bat" := by
      intro hkb
      have h2 := (Bool.and_eq_true _ _).mp hbat |>.2
      rcases List.any_eq_true.mp h2 with ⟨p, hp, hpk⟩
      rcases mem_foldl_defs hp with ⟨r, hr, he⟩
      exact hb hkb r hr (by rw [← he]; exact beq_iff_eq.mp hpk)
    rw [if_pos hbat]
    by_cases htr2 : ids.contains (Val.vstr "fpu_tracker") = true
    · rw [if_pos htr2, alistGet?_set_ne _ _ ht, alistGet?_set_ne _ _ hkb, hget0]
    · rw [if_neg htr2, alistGet?_set_ne _ _ hkb, hget0]
  · rw [if_neg hbat]
    by_cases htr2 : ids.contains (Val.vstr "fpu_tracker") = true
    · rw [if_pos htr2, alistGet?_set_ne _ _ ht, hget0]
    · rw [if_neg htr2]
      exact hget0

theorem buildIdToFdir_get_bat (defs : List DefRow) (ids : List Val)
    (h1 : Val.vstr "fpu_bat" ∈ ids)
    (h2 : ∃ r ∈ defs, r.id = Val.vstr "fpu_batt") :
    alistGet? (buildIdToFdir defs ids) (Val.vstr "fpu_bat")
      = some (Val.vstr "Battery") := by
  have hc : ids.contains (Val.vstr "fpu_bat") = true := List.elem_iff.mpr h1
  have hany : (defs.foldl (fun d r => alistSet d r.id r.FDIRs) []).any
      (fun p => p.1 == Val.vstr "fpu_batt") = true := by
    rcases h2 with ⟨r, hr, he⟩
    have hk := foldl_alistSet_hasKey (fun r : DefRow => r.id) (fun r : DefRow => r.FDIRs)
      defs [] r hr
    simpa [he] using hk
  have hbat : (ids.contains (Val.vstr "fpu_bat")
      && (defs.foldl (fun d r => alistSet d r.id r.FDIRs) []).any
        (fun p => p.1 == Val.vstr "fpu_batt")) = true := by
    rw [hc, hany]
    rfl
  simp only [buildIdToFdir]
  rw [if_pos hbat]
  by_cases htr : ids.contains (Val.vstr "fpu_tracker") = true
  · rw [if_pos htr, alistGet?_set_ne _ _ (by decide), alistGet?_set_self]
  · rw [if_neg htr, alistGet?_set_self]

theorem buildIdToFdir_get_tracker (defs : List DefRow) (ids : List Val)
    (h : Val.vstr "fpu_tracker" ∈ ids) :
    alistGet? (buildIdToFdir defs ids) (Val.vstr "fpu_tracker")
      = some (Val.vstr "Tracker") := by
  have hc : ids.contains (Val.vstr "fpu_tracker") = true := List.elem_iff.mpr h
  simp only [buildIdToFdir]
  by_cases hbat : (ids.contains (Val.vstr "fpu_bat")
      && (defs.foldl (fun d r => alistSet d r.id r.FDIRs) []).any
        (fun p => p.1 == Val.vstr "fpu_batt")) = true
  · rw [if_pos hbat, if_pos hc, alistGet?_set_self]
  · rw [if_neg hbat, if_pos hc, alistGet?_set_self]

/-! ## Lemmas about the flat output rows -/

theorem mem_entityRows {name k : Val} {fm : List MonRow} {fc : List CondRow}
    {r : SimpleRow} (h : r ∈ entityRows name k fm fc) :
    r.FDIRs = name ∧ r.id = k := by
  unfold entityRows at h
  rcases List.mem_map.mp h with ⟨i, _, rfl⟩
  exact ⟨rfl, rfl⟩

theorem entityRows_exists (name k : Val) (fm : List MonRow) (fc : List CondRow) :
    ∃ r ∈ entityRows name k fm fc, r.id = k ∧ r.FDIRs = name := by
  refine ⟨_, List.mem_map.mpr ⟨0, List.mem_range.mpr ?_, rfl⟩, rfl, rfl⟩
  exact Nat.lt_of_lt_of_le Nat.zero_lt_one (Nat.le_max_right _ _)

theorem mem_create_simple {defs : List DefRow} {mons : List MonRow} {conds : List CondRow}
    {r : SimpleRow} (h : r ∈ create_simple_combined_excel defs mons conds) :
    ∃ k ∈ allIds mons conds,
      r.FDIRs = fdirLabel (buildIdToFdir defs (allIds mons conds)) k ∧ r.id = k := by
  unfold create_simple_combined_excel at h
  rcases List.mem_flatMap.mp h with ⟨k, hk, hr⟩
  exact ⟨k, hk, (mem_entityRows hr).1, (mem_entityRows hr).2⟩

theorem create_simple_exists (defs : List DefRow) (mons : List MonRow) (conds : List CondRow)
    {k : Val} (hk : k ∈ allIds mons conds) :
    ∃ r ∈ create_simple_combined_excel defs mons conds,
      r.id = k ∧ r.FDIRs = fdirLabel (buildIdToFdir defs (allIds mons conds)) k := by
  rcases entityRows_exists (fdirLabel (buildIdToFdir defs (allIds mons conds)) k) k
      (selectMonitors mons k) (selectConditions conds k) with ⟨r, hr, hid, hname⟩
  exact ⟨r, List.mem_flatMap.mpr ⟨k, hk, hr⟩, hid, hname⟩

/-- Counterexample to C8 as stated: the key "fpu_tracker" appears only in
the monitors child table and not in the (empty) parent table, yet its
entity label is the hardcoded "Tracker", not "Unknown_fpu_tracker". -/
theorem claim_C8_counterexample :
    (create_simple_combined_excel [] [⟨Val.vstr "fpu_tracker", Val.vstr "m1", Val.vint 3⟩] []
      = [⟨Val.vstr "Tracker", Val.vstr "fpu_tracker", Val.vstr "m1", Val.vint 3,
          emptyStr, emptyStr, emptyStr⟩]) ∧
    Val.vstr "Tracker" ≠ Val.vstr ("Unknown_" ++ (Val.vstr "fpu_tracker").pyStr) := by
  constructor
  · rfl
  · decide

/-- C8 amended: in union-of-all-keys mode, a key present in a child table
but absent from the parent table is labelled `Unknown_<key>` and never
omitted — except for the two hardcoded special cases: `fpu_tracker` (always
remapped to "Tracker") and `fpu_bat` when `fpu_batt` is a parent key
(remapped to "Battery"). -/
theorem claim_C8_unknown_label (defs : List DefRow) (mons : List MonRow)
    (conds : List CondRow) (k : Val)
    (hk : k ∈ allIds mons conds)
    (hnp : ∀ r ∈ defs, r.id ≠ k)
    (ht : k ≠ Val.vstr "fpu_tracker")
    (hb : k = Val.vstr "fpu_bat" → ∀ r ∈ defs, r.id ≠ Val.vstr "fpu_batt") :
    (∃ r ∈ create_simple_combined_excel defs mons conds, r.id = k) ∧
    (∀ r ∈ create_simple_combined_excel defs mons conds, r.id = k →
      r.FDIRs = Val.vstr ("Unknown_" ++ k.pyStr)) := by
  have hlabel : fdirLabel (buildIdToFdir defs (allIds mons conds)) k
      = Val.vstr ("Unknown_" ++ k.pyStr) := by
    unfold fdirLabel
    rw [buildIdToFdir_get_none defs _ hnp ht hb]
    rfl
  constructor
  · rcases create_simple_exists defs mons conds hk with ⟨r, hr, hid, _⟩
    exact ⟨r, hr, hid⟩
  · intro r hr hid
    rcases mem_create_simple hr with ⟨k2, _, hname, hid2⟩
    have hk2 : k2 = k := by rw [← hid2, hid]
    rw [hname, hk2, hlabel]

/-- Sample monitors sheet whose key appears in no parent row. -/
def witnessMons8 : List MonRow := [⟨Val.vstr "ck", Val.vstr "m", Val.vint 1⟩]

/-- Sample parent sheet without the child key "ck". -/
def witnessDefs8 : List DefRow := [⟨Val.vstr "D", Val.vstr "x"⟩]

/-- Witness for C8's amended statement: the child-only key "ck" is labelled
"Unknown_ck" and not omitted. -/
theorem claim_C8_unknown_label_witness :
    (∃ r ∈ create_simple_combined_excel witnessDefs8 witnessMons8 [],
      r.id = Val.vstr "ck") ∧
    (∀ r ∈ create_simple_combined_excel witnessDefs8 witnessMons8 [],
      r.id = Val.vstr "ck" →
      r.FDIRs = Val.vstr ("Unknown_" ++ (Val.vstr "ck").pyStr)) :=
  claim_C8_unknown_label witnessDefs8 witnessMons8 [] (Val.vstr "ck")
    (by decide) (by decide) (by decide) (by decide)

/-- C10: the two hardcoded special cases of the union-of-all-keys combiner:
whenever "fpu_bat" appears among the child-table keys and "fpu_batt" is a
parent key, every output row for "fpu_bat" is labelled "Battery"; and
whenever "fpu_tracker" appears among the child-table keys, every output row
for it is labelled "Tracker" (parent table or not); neither entity is
omitted. -/
theorem claim_C10_hardcoded_remaps (defs : List DefRow) (mons : List MonRow)
    (conds : List CondRow) :
    (Val.vstr "fpu_bat" ∈ allIds mons conds →
      (∃ r ∈ defs, r.id = Val.vstr "fpu_batt") →
      (∃ r ∈ create_simple_combined_excel defs mons conds,
        r.id = Val.vstr "fpu_bat") ∧
      (∀ r ∈ create_simple_combined_excel defs mons conds,
        r.id = Val.vstr "fpu_bat" → r.FDIRs = Val.vstr "Battery")) ∧
    (Val.vstr "fpu_tracker" ∈ allIds mons conds →
      (∃ r ∈ create_simple_combined_excel defs mons conds,
        r.id = Val.vstr "fpu_tracker") ∧
      (∀ r ∈ create_simple_combined_excel defs mons conds,
        r.id = Val.vstr "fpu_tracker" → r.FDIRs = Val.vstr "Tracker")) := by
  constructor
  · intro hk hbatt
    have hlabel : fdirLabel (buildIdToFdir defs (allIds mons conds)) (Val.vstr "fpu_bat")
        = Val.vstr "Battery" := by
      unfold fdirLabel
      rw [buildIdToFdir_get_bat defs _ hk hbatt]
      rfl
    constructor
    · rcases create_simple_exists defs mons conds hk with ⟨r, hr, hid, _⟩
      exact ⟨r, hr, hid⟩
    · intro r hr hid
      rcases mem_create_simple hr with ⟨k2, _, hname, hid2⟩
      have hk2 : k2 = Val.vstr "fpu_bat" := by rw [← hid2, hid]
      rw [hname, hk2, hlabel]
  · intro hk
    have hlabel : fdirLabel (buildIdToFdir defs (allIds mons conds)) (Val.vstr "fpu_tracker")
        = Val.vstr "Tracker" := by
      unfold fdirLabel
      rw [buildIdToFdir_get_tracker defs _ hk]
      rfl
    constructor
    · rcases create_simple_exists defs mons conds hk with ⟨r, hr, hid, _⟩
      exact ⟨r, hr, hid⟩
    · intro r hr hid
      rcases mem_create_simple hr with ⟨k2, _, hname, hid2⟩
      have hk2 : k2 = Val.vstr "fpu_tracker" := by rw [← hid2, hid]
      rw [hname, hk2, hlabel]

/-- Sample parent sheet containing the "fpu_batt" key. -/
def witnessDefs10 : List DefRow := [⟨Val.vstr "Batt", Val.vstr "fpu_batt"⟩]

/-- Sample monitors sheet containing both special child keys. -/
def witnessMons10 : List MonRow :=
  [⟨Val.vstr "fpu_bat", Val.vstr "m1", Val.vint 1⟩,
   ⟨Val.vstr "fpu_tracker", Val.vstr "m2", Val.vint 2⟩]

/-- Witness for C10 at sheets containing both special keys. -/
theorem claim_C10_hardcoded_remaps_witness :
    ((∃ r ∈ create_simple_combined_excel witnessDefs10 witnessMons10 [],
        r.id = Val.vstr "fpu_bat") ∧
     (∀ r ∈ create_simple_combined_excel witnessDefs10 witnessMons10 [],
        r.id = Val.vstr "fpu_bat" → r.FDIRs = Val.vstr "Battery")) ∧
    ((∃ r ∈ create_simple_combined_excel witnessDefs10 witnessMons10 [],
        r.id = Val.vstr "fpu_tracker") ∧
     (∀ r ∈ create_simple_combined_excel witnessDefs10 witnessMons10 [],
        r.id = Val.vstr "fpu_tracker" → r.FDIRs = Val.vstr "Tracker")) :=
  ⟨(claim_C10_hardcoded_remaps witnessDefs10 witnessMons10 []).1 (by decide)
      ⟨⟨Val.vstr "Batt", Val.vstr "fpu_batt"⟩, by decide, rfl⟩,
   (claim_C10_hardcoded_remaps witnessDefs10 witnessMons10 []).2 (by decide)⟩

end XlsMerger
